import Mathlib

set_option autoImplicit false

/-!
Shallow embedding of the `lesomnus::channel` library: the
`bounded_channel<T, Cap>` template (bounded_channel.hpp), the standalone
`unbounded_channel<T>` class (unbounded_channel.hpp), and the `select`
coordinator (select.hpp).  All operations run under the channel mutex in the
source, so each is modelled as a pure function from the channel state (the
fields guarded by `mutex_`) to a result bundling the new state, the error
code or outcome, the callback invocations performed, and whether every
`assert` encountered on the path held.
-/

namespace ChannelModel

/-- Outcome codes, from `channel_errc` in error.hpp. -/
inductive Errc where
  | ok
  | exhausted
  | closed
  | canceled
  deriving DecidableEq, Repr

/-- Capacity parameter of `bounded_channel<T, Cap>`.  In the source `Cap` is
a `size_t` and `unbounded_capacity = (size_t)-1`; the `if constexpr`
dispatch on `Cap` becomes case analysis on this inductive. -/
inductive Capacity where
  | bounded (n : Nat)
  | unbounded
  deriving DecidableEq, Repr

/-- Observable completion-callback invocations: `recv_task.execute(ok, src)`
delivers `src` to a receiver callback, `send_task.execute(ok, dst)` (and the
direct `on_settled(ok)` calls of the `*_sched` fast paths) settle a sender
callback. -/
inductive Event (α : Type) where
  | recvSettle (ok : Bool) (v : α)
  | sendSettle (ok : Bool)
  deriving DecidableEq, Repr

/-- A hanged send task, `detail::task<std::function<void(bool, T&)>>`.
The `need_abort` closure is stateful in the source: the token it consults
can be flipped by the task's own `execute` (the task registered by the
blocking `send_` calls `task_stop_source.request_stop()` inside its
callback, and the `select` commit gate trips after its first consultation,
which in every channel code path is immediately followed by `execute`).
It is therefore modelled as a function of `execCount`, the number of times
`execute` has run on this task so far.  `value` is the value the callback
moves into `dst` when executed with `ok = true`. -/
structure SendTask (α : Type) where
  needAbort : Nat → Bool
  execCount : Nat
  value : α

/-- A hanged receive task, `detail::task<std::function<void(bool, T&&)>>`,
modelled like `SendTask`; its callback consumes the delivered value, which
is recorded as an `Event.recvSettle`. -/
structure RecvTask (α : Type) where
  needAbort : Nat → Bool
  execCount : Nat

/-- What `task.need_abort()` returns right now. -/
def SendTask.abortedNow {α : Type} (t : SendTask α) : Bool :=
  t.needAbort t.execCount

/-- What `task.need_abort()` returns right now. -/
def RecvTask.abortedNow {α : Type} (t : RecvTask α) : Bool :=
  t.needAbort t.execCount

/-- The fields of `bounded_channel` guarded by `mutex_`: `is_closed_`,
`buffer_`, `hanged_recv_tasks`, `hanged_send_tasks`.  Queue fronts are list
heads. -/
structure ChanState (α : Type) where
  isClosed : Bool
  buffer : List α
  recvTasks : List (RecvTask α)
  sendTasks : List (SendTask α)

/-- The `need_abort` closure of the task registered by the blocking `send_`
and `recv`: `[task_token] { return task_token.stop_requested(); }`, false
until the task's `execute` has run once. -/
def blockingNeedAbort : Nat → Bool :=
  fun n => decide (0 < n)

/-- Garbage-collection loop at the head of `size()` for the receive queue:
`while(!q.empty()) { if(!q.front().need_abort()) break; q.pop(); }`. -/
def pruneRecvHead {α : Type} : List (RecvTask α) → List (RecvTask α)
  | [] => []
  | t :: rest => if t.abortedNow then pruneRecvHead rest else t :: rest

/-- Garbage-collection loop at the head of `size()` for the send queue. -/
def pruneSendHead {α : Type} : List (SendTask α) → List (SendTask α)
  | [] => []
  | t :: rest => if t.abortedNow then pruneSendHead rest else t :: rest

structure SizeRes (α : Type) where
  value : Int
  state : ChanState α

/-- The `size()` member of `bounded_channel`: prunes aborted heads (the send
queue only when `Cap != unbounded_capacity`), then returns
`buffer_.size() + hanged_send_tasks.size() - hanged_recv_tasks.size()`. -/
def size {α : Type} (cap : Capacity) (s : ChanState α) : SizeRes α :=
  let rq := pruneRecvHead s.recvTasks
  let sq := match cap with
    | .bounded _ => pruneSendHead s.sendTasks
    | .unbounded => s.sendTasks
  { value := (s.buffer.length : Int) + sq.length - rq.length
    state := { s with recvTasks := rq, sendTasks := sq } }

/-- The receive-queue drain of `close()`: every task is popped; live ones
are executed with `(false, std::move(v))` where `v` is a default-constructed
local. -/
def closeDrainRecv {α : Type} [Inhabited α] : List (RecvTask α) → List (Event α)
  | [] => []
  | t :: rest =>
    if t.abortedNow then closeDrainRecv rest
    else .recvSettle false default :: closeDrainRecv rest

/-- The send-queue drain of `close()` (compiled only when
`Cap != unbounded_capacity`): every task is popped; live ones are executed
with `(false, v)`. -/
def closeDrainSend {α : Type} : List (SendTask α) → List (Event α)
  | [] => []
  | t :: rest =>
    if t.abortedNow then closeDrainSend rest
    else .sendSettle false :: closeDrainSend rest

structure CloseRes (α : Type) where
  state : ChanState α
  events : List (Event α)

/-- The `close()` member of `bounded_channel`: sets `is_closed_`, drains the
receive queue, and — only when `Cap != unbounded_capacity` — drains the send
queue. -/
def close {α : Type} [Inhabited α] (cap : Capacity) (s : ChanState α) : CloseRes α :=
  match cap with
  | .bounded _ =>
      { state := { s with isClosed := true, recvTasks := [], sendTasks := [] }
        events := closeDrainRecv s.recvTasks ++ closeDrainSend s.sendTasks }
  | .unbounded =>
      { state := { s with isClosed := true, recvTasks := [] }
        events := closeDrainRecv s.recvTasks }

structure HandoffRes (α : Type) where
  delivered : Bool
  recvTasks : List (RecvTask α)
  events : List (Event α)
  assertOk : Bool

/-- The `while(!hanged_recv_tasks.empty())` loop of the boolean `try_send_`:
each iteration asserts `buffer_.empty()`, pops an aborted head, or hands the
value to the first live receive task (copying it into a temporary, so the
argument is consumed) and pops it.  `bufEmpty` is `buffer_.empty()`, which
the loop does not change. -/
def sendHandoffLoop {α : Type} (v : α) (bufEmpty : Bool) :
    List (RecvTask α) → HandoffRes α
  | [] => { delivered := false, recvTasks := [], events := [], assertOk := true }
  | t :: rest =>
    if t.abortedNow then
      let r := sendHandoffLoop v bufEmpty rest
      { r with assertOk := bufEmpty && r.assertOk }
    else
      { delivered := true, recvTasks := rest
        events := [.recvSettle true v], assertOk := bufEmpty }

structure TrySendRes (α : Type) where
  ok : Bool
  state : ChanState α
  events : List (Event α)
  consumed : Bool
  assertOk : Bool

/-- The private boolean `try_send_(U&& value)` of `bounded_channel`: hand
off to a live receive waiter if any; else fail when `Cap == 0`; else fail
when bounded and the buffer is full; else append to the buffer.  `consumed`
records whether the argument was moved from (handoff or append). -/
def trySendB {α : Type} (cap : Capacity) (v : α) (s : ChanState α) : TrySendRes α :=
  let r := sendHandoffLoop v s.buffer.isEmpty s.recvTasks
  if r.delivered then
    { ok := true, state := { s with recvTasks := r.recvTasks }
      events := r.events, consumed := true, assertOk := r.assertOk }
  else
    match cap with
    | .bounded 0 =>
        { ok := false, state := { s with recvTasks := r.recvTasks }
          events := r.events, consumed := false, assertOk := r.assertOk }
    | .bounded (n + 1) =>
        if s.buffer.length ≥ n + 1 then
          { ok := false, state := { s with recvTasks := r.recvTasks }
            events := r.events, consumed := false, assertOk := r.assertOk }
        else
          { ok := true
            state := { s with recvTasks := r.recvTasks, buffer := s.buffer ++ [v] }
            events := r.events, consumed := true, assertOk := r.assertOk }
    | .unbounded =>
        { ok := true
          state := { s with recvTasks := r.recvTasks, buffer := s.buffer ++ [v] }
          events := r.events, consumed := true, assertOk := r.assertOk }

structure TrySendEcRes (α : Type) where
  ec : Errc
  state : ChanState α
  events : List (Event α)
  consumed : Bool
  assertOk : Bool

/-- The error-code `try_send_(U&& value, std::error_code& ec)` of
`bounded_channel`: `closed` when closed; for `Cap == unbounded_capacity`
always `ok`; otherwise `ok` or `exhausted` per the boolean helper. -/
def trySend {α : Type} (cap : Capacity) (v : α) (s : ChanState α) : TrySendEcRes α :=
  if s.isClosed then
    { ec := .closed, state := s, events := [], consumed := false, assertOk := true }
  else
    match cap with
    | .unbounded =>
        let r := trySendB .unbounded v s
        { ec := .ok, state := r.state, events := r.events
          consumed := r.consumed, assertOk := r.assertOk }
    | .bounded n =>
        let r := trySendB (.bounded n) v s
        { ec := if r.ok then .ok else .exhausted, state := r.state
          events := r.events, consumed := r.consumed, assertOk := r.assertOk }

/-- Outcome of a blocking operation: the fast path returns an error code
synchronously; otherwise the caller registers a waiter and suspends. -/
inductive BlockOutcome where
  | done (ec : Errc)
  | suspended
  deriving DecidableEq, Repr

structure SendOpRes (α : Type) where
  outcome : BlockOutcome
  state : ChanState α
  events : List (Event α)
  consumed : Bool
  assertOk : Bool

/-- The blocking `send_(token, value, ec)` of `bounded_channel`:
`canceled` if the token is already stop-requested, `closed` if closed,
`ok` on the `try_send_` fast path (always taken when unbounded), else a
send task is enqueued and the caller suspends. -/
def send {α : Type} (cap : Capacity) (stopRequested : Bool) (v : α)
    (s : ChanState α) : SendOpRes α :=
  if stopRequested then
    { outcome := .done .canceled, state := s, events := []
      consumed := false, assertOk := true }
  else if s.isClosed then
    { outcome := .done .closed, state := s, events := []
      consumed := false, assertOk := true }
  else
    match cap with
    | .unbounded =>
        let r := trySendB .unbounded v s
        { outcome := .done .ok, state := r.state, events := r.events
          consumed := r.consumed, assertOk := r.assertOk }
    | .bounded n =>
        let r := trySendB (.bounded n) v s
        if r.ok then
          { outcome := .done .ok, state := r.state, events := r.events
            consumed := r.consumed, assertOk := r.assertOk }
        else
          { outcome := .suspended
            state := { r.state with
              sendTasks := r.state.sendTasks ++ [⟨blockingNeedAbort, 0, v⟩] }
            events := r.events, consumed := false, assertOk := r.assertOk }

structure SchedRes (α : Type) where
  state : ChanState α
  events : List (Event α)
  assertOk : Bool

/-- The `send_sched_(value, need_abort, on_settled)` of `bounded_channel`.
When closed, settles with `false`.  When `Cap == unbounded_capacity`, it
calls `try_send_` and settles with `true`.  When `Cap == 0`, it tries
`try_send_` and settles with `true` on success.  For every other bounded
capacity the `if constexpr` chain skips the fast path entirely and a send
task is registered unconditionally. -/
def sendSched {α : Type} (cap : Capacity) (v : α) (needAbort : Nat → Bool)
    (s : ChanState α) : SchedRes α :=
  if s.isClosed then
    { state := s, events := [.sendSettle false], assertOk := true }
  else
    match cap with
    | .unbounded =>
        let r := trySendB .unbounded v s
        { state := r.state, events := r.events ++ [.sendSettle true]
          assertOk := r.assertOk }
    | .bounded 0 =>
        let r := trySendB (.bounded 0) v s
        if r.ok then
          { state := r.state, events := r.events ++ [.sendSettle true]
            assertOk := r.assertOk }
        else
          { state := { r.state with
              sendTasks := r.state.sendTasks ++ [⟨needAbort, 0, v⟩] }
            events := r.events, assertOk := r.assertOk }
    | .bounded (_ + 1) =>
        { state := { s with sendTasks := s.sendTasks ++ [⟨needAbort, 0, v⟩] }
          events := [], assertOk := true }

structure DrainRes (α : Type) where
  buffer : List α
  tasks : List (SendTask α)
  events : List (Event α)
  assertOk : Bool

/-- The drain loop of `try_recv_` for a bounded capacity, entered after a
value was popped from a non-empty buffer:

`while(!hanged_send_tasks.empty()) { assert(buffer_.size() < Cap);
if(front aborted) pop, continue; buffer_.emplace(); front.execute(true, v); }`

The loop neither pops nor breaks after executing a live task, so it
terminates only when the queue empties via aborted-head pops; it is
modelled with explicit fuel, one unit per iteration, returning the current
state when fuel runs out. -/
def drainSendLoop {α : Type} (n : Nat) :
    Nat → List α → List (SendTask α) → DrainRes α
  | _, buffer, [] => { buffer := buffer, tasks := [], events := [], assertOk := true }
  | 0, buffer, ts => { buffer := buffer, tasks := ts, events := [], assertOk := true }
  | fuel + 1, buffer, t :: rest =>
    let aok := decide (buffer.length < n)
    if t.abortedNow then
      let r := drainSendLoop n fuel buffer rest
      { r with assertOk := aok && r.assertOk }
    else
      let r := drainSendLoop n fuel (buffer ++ [t.value])
        ({ t with execCount := t.execCount + 1 } :: rest)
      { r with events := .sendSettle true :: r.events, assertOk := aok && r.assertOk }

structure RecvHandoffRes (α : Type) where
  received : Option α
  tasks : List (SendTask α)
  events : List (Event α)
  assertOk : Bool

/-- The second `while(!hanged_send_tasks.empty())` loop of `try_recv_`
(reached when the buffer is empty): each iteration asserts
`buffer_.size() >= Cap` (`capLeBuf`, constant since the buffer is not
touched), pops an aborted head, or executes the first live send task into
the receiver's out-parameter and pops it. -/
def recvHandoffLoop {α : Type} (capLeBuf : Bool) :
    List (SendTask α) → RecvHandoffRes α
  | [] => { received := none, tasks := [], events := [], assertOk := true }
  | t :: rest =>
    if t.abortedNow then
      let r := recvHandoffLoop capLeBuf rest
      { r with assertOk := capLeBuf && r.assertOk }
    else
      { received := some t.value, tasks := rest
        events := [.sendSettle true], assertOk := capLeBuf }

structure TryRecvRes (α : Type) where
  found : Bool
  value : α
  state : ChanState α
  events : List (Event α)
  assertOk : Bool

/-- The block of `try_recv_` guarded by `if(!hanged_send_tasks.empty())`,
which first asserts `Cap == 0`, then runs the handoff loop; if the loop
drains the queue without a live task the function falls through to
`return false`. -/
def tryRecvSecond {α : Type} (n : Nat) (value : α) (s : ChanState α) : TryRecvRes α :=
  match s.sendTasks with
  | [] => { found := false, value := value, state := s, events := [], assertOk := true }
  | t :: rest =>
    let aok := decide (n = 0)
    let r := recvHandoffLoop (decide (n ≤ s.buffer.length)) (t :: rest)
    match r.received with
    | some v =>
        { found := true, value := v, state := { s with sendTasks := r.tasks }
          events := r.events, assertOk := aok && r.assertOk }
    | none =>
        { found := false, value := value, state := { s with sendTasks := r.tasks }
          events := r.events, assertOk := aok && r.assertOk }

/-- The private boolean `try_recv_(T& value)` of `bounded_channel`.
For `Cap != 0`, a non-empty buffer is popped into the out-parameter and,
when bounded, the send-waiter drain loop runs.  Otherwise, when
`Cap != unbounded_capacity` and send waiters exist, a direct handoff is
attempted.  `value` is the current content of the caller's out-parameter,
returned unchanged when nothing is received. -/
def tryRecvB {α : Type} (cap : Capacity) (fuel : Nat) (value : α)
    (s : ChanState α) : TryRecvRes α :=
  match cap with
  | .unbounded =>
      match s.buffer with
      | v :: buf =>
          { found := true, value := v, state := { s with buffer := buf }
            events := [], assertOk := true }
      | [] =>
          { found := false, value := value, state := s, events := [], assertOk := true }
  | .bounded 0 => tryRecvSecond 0 value s
  | .bounded (n + 1) =>
      match s.buffer with
      | v :: buf =>
          let r := drainSendLoop (n + 1) fuel buf s.sendTasks
          { found := true, value := v
            state := { s with buffer := r.buffer, sendTasks := r.tasks }
            events := r.events, assertOk := r.assertOk }
      | [] => tryRecvSecond (n + 1) value s

structure TryRecvEcRes (α : Type) where
  ec : Errc
  value : α
  state : ChanState α
  events : List (Event α)
  assertOk : Bool

/-- The public `try_recv(T& value, std::error_code& ec)` of
`bounded_channel`: `closed` when closed, else `ok` or `exhausted` per
`try_recv_`. -/
def tryRecv {α : Type} (cap : Capacity) (fuel : Nat) (value : α)
    (s : ChanState α) : TryRecvEcRes α :=
  if s.isClosed then
    { ec := .closed, value := value, state := s, events := [], assertOk := true }
  else
    let r := tryRecvB cap fuel value s
    { ec := if r.found then .ok else .exhausted, value := r.value
      state := r.state, events := r.events, assertOk := r.assertOk }

structure RecvOpRes (α : Type) where
  outcome : BlockOutcome
  value : α
  state : ChanState α
  events : List (Event α)
  assertOk : Bool

/-- The blocking `recv(token, value, ec)` of `bounded_channel`:
`canceled` if the token is already stop-requested, `closed` if closed,
`ok` on the `try_recv_` fast path, else a receive task is enqueued and the
caller suspends. -/
def recv {α : Type} (cap : Capacity) (fuel : Nat) (stopRequested : Bool)
    (value : α) (s : ChanState α) : RecvOpRes α :=
  if stopRequested then
    { outcome := .done .canceled, value := value, state := s
      events := [], assertOk := true }
  else if s.isClosed then
    { outcome := .done .closed, value := value, state := s
      events := [], assertOk := true }
  else
    let r := tryRecvB cap fuel value s
    if r.found then
      { outcome := .done .ok, value := r.value, state := r.state
        events := r.events, assertOk := r.assertOk }
    else
      { outcome := .suspended, value := value
        state := { r.state with
          recvTasks := r.state.recvTasks ++ [⟨blockingNeedAbort, 0⟩] }
        events := r.events, assertOk := r.assertOk }

/-- The `recv_sched(need_abort, on_settled)` of `bounded_channel`: settle
with `false` when closed, with `true` and the received value when
`try_recv_` succeeds on a default-constructed local, else register a
receive task. -/
def recvSched {α : Type} [Inhabited α] (cap : Capacity) (fuel : Nat)
    (needAbort : Nat → Bool) (s : ChanState α) : SchedRes α :=
  if s.isClosed then
    { state := s, events := [.recvSettle false default], assertOk := true }
  else
    let r := tryRecvB cap fuel (default : α) s
    if r.found then
      { state := r.state, events := r.events ++ [.recvSettle true r.value]
        assertOk := r.assertOk }
    else
      { state := { r.state with recvTasks := r.state.recvTasks ++ [⟨needAbort, 0⟩] }
        events := r.events, assertOk := r.assertOk }

/-!
The standalone `unbounded_channel<T>` class from unbounded_channel.hpp.
It has no send-waiter queue; its state is `is_closed_`, `buffer_`, and
`hanged_recv_tasks`.
-/

/-- The mutex-guarded fields of the standalone `unbounded_channel`. -/
structure UState (α : Type) where
  isClosed : Bool
  buffer : List α
  recvTasks : List (RecvTask α)

structure USizeRes (α : Type) where
  value : Int
  state : UState α

/-- The `size()` member of `unbounded_channel`: garbage-collects aborted
heads of the receive queue, then returns
`buffer_.size() - hanged_recv_tasks.size()`. -/
def uSize {α : Type} (s : UState α) : USizeRes α :=
  let rq := pruneRecvHead s.recvTasks
  { value := (s.buffer.length : Int) - rq.length
    state := { s with recvTasks := rq } }

structure UCloseRes (α : Type) where
  state : UState α
  events : List (Event α)

/-- The `close()` member of `unbounded_channel`: sets `is_closed_` and
drains the receive queue, executing live tasks with `(false, ...)`. -/
def uClose {α : Type} [Inhabited α] (s : UState α) : UCloseRes α :=
  { state := { s with isClosed := true, recvTasks := [] }
    events := closeDrainRecv s.recvTasks }

structure UTryRecvRes (α : Type) where
  found : Bool
  value : α
  state : UState α

/-- The private `try_recv_(T& value)` of `unbounded_channel`: pop the
buffer front if any. -/
def uTryRecvB {α : Type} (value : α) (s : UState α) : UTryRecvRes α :=
  match s.buffer with
  | [] => { found := false, value := value, state := s }
  | v :: buf => { found := true, value := v, state := { s with buffer := buf } }

structure UTryRecvEcRes (α : Type) where
  ec : Errc
  value : α
  state : UState α

/-- The public `try_recv(T& value, std::error_code& ec)` of
`unbounded_channel`: `closed` when closed, else `ok` or `exhausted` per
`try_recv_`. -/
def uTryRecv {α : Type} (value : α) (s : UState α) : UTryRecvEcRes α :=
  if s.isClosed then
    { ec := .closed, value := value, state := s }
  else
    let r := uTryRecvB value s
    { ec := if r.found then .ok else .exhausted, value := r.value, state := r.state }

structure UTrySendRes (α : Type) where
  state : UState α
  events : List (Event α)
  assertOk : Bool

/-- The private boolean `try_send_(U&& value)` of `unbounded_channel`:
hand off to the first live receive waiter, else append to the buffer;
it always returns true, so only the state and events are recorded. -/
def uTrySendB {α : Type} (v : α) (s : UState α) : UTrySendRes α :=
  let r := sendHandoffLoop v s.buffer.isEmpty s.recvTasks
  if r.delivered then
    { state := { s with recvTasks := r.recvTasks }
      events := r.events, assertOk := r.assertOk }
  else
    { state := { s with recvTasks := r.recvTasks, buffer := s.buffer ++ [v] }
      events := r.events, assertOk := r.assertOk }

structure UTrySendEcRes (α : Type) where
  ec : Errc
  state : UState α
  events : List (Event α)
  assertOk : Bool

/-- The error-code `try_send_(U&& value, std::error_code& ec)` of
`unbounded_channel`: `closed` when closed, else `try_send_` then `ok`. -/
def uTrySend {α : Type} (v : α) (s : UState α) : UTrySendEcRes α :=
  if s.isClosed then
    { ec := .closed, state := s, events := [], assertOk := true }
  else
    let r := uTrySendB v s
    { ec := .ok, state := r.state, events := r.events, assertOk := r.assertOk }

/-- The blocking `send_(token, value, ec)` of `unbounded_channel`:
`canceled` if the token is already stop-requested, `closed` if closed,
else `try_send_` then `ok`; it never suspends. -/
def uSend {α : Type} (stopRequested : Bool) (v : α) (s : UState α) : UTrySendEcRes α :=
  if stopRequested then
    { ec := .canceled, state := s, events := [], assertOk := true }
  else if s.isClosed then
    { ec := .closed, state := s, events := [], assertOk := true }
  else
    let r := uTrySendB v s
    { ec := .ok, state := r.state, events := r.events, assertOk := r.assertOk }

structure URecvOpRes (α : Type) where
  outcome : BlockOutcome
  value : α
  state : UState α

/-- The blocking `recv(token, value, ec)` of `unbounded_channel`:
`canceled` if the token is already stop-requested, `closed` if closed,
`ok` on the `try_recv_` fast path, else a receive task is enqueued and the
caller suspends. -/
def uRecv {α : Type} (stopRequested : Bool) (value : α) (s : UState α) : URecvOpRes α :=
  if stopRequested then
    { outcome := .done .canceled, value := value, state := s }
  else if s.isClosed then
    { outcome := .done .closed, value := value, state := s }
  else
    let r := uTryRecvB value s
    if r.found then
      { outcome := .done .ok, value := r.value, state := r.state }
    else
      { outcome := .suspended, value := value
        state := { r.state with
          recvTasks := r.state.recvTasks ++ [⟨blockingNeedAbort, 0⟩] } }

/-!
The `select` coordinator from select.hpp.  The source is generic over a
pack of operation wrappers through the `detail::op` interface
(`try_execute` and `schedule`), each mutating the channels it is bound to;
an op is therefore modelled as a pair of functions on an abstract world
state `σ`, and the pack as a list.
-/

/-- The `detail::op` interface: `try_execute` is the non-blocking attempt
(returning whether the op settled), `schedule` registers the op's waiter
with a channel. -/
structure Op (σ : Type) where
  tryExecute : σ → Bool × σ
  schedule : σ → σ

/-- The greedy pass of `select`: a fold over the ops in the order
provided, where the lambda returns without calling `try_execute` once
`is_executed` is set. -/
def greedyPass {σ : Type} (ops : List (Op σ)) (w : σ) : Bool × σ :=
  ops.foldl (fun acc op => if acc.1 then acc else op.tryExecute acc.2) (false, w)

/-- Registration of every op via `op.schedule(need_abort)`, in order. -/
def scheduleAll {σ : Type} (ops : List (Op σ)) (w : σ) : σ :=
  ops.foldl (fun w op => op.schedule w) w

/-- How a `select` call resolved: an op settled during the greedy pass, the
fallback ran, or every op was scheduled and the caller suspended. -/
inductive SelectRes (σ : Type) where
  | greedy (w : σ)
  | fellback (w : σ)
  | scheduled (w : σ)
  deriving DecidableEq

/-- The `select(token, ops..., fallback)` driver: greedy pass; if some op
settled, return at once; else run the fallback if one was given; else
schedule every op and suspend. -/
def select {σ : Type} (ops : List (Op σ)) (fallback : Option (σ → σ)) (w : σ) :
    SelectRes σ :=
  let r := greedyPass ops w
  if r.1 then .greedy r.2
  else
    match fallback with
    | some f => .fellback (f r.2)
    | none => .scheduled (scheduleAll ops r.2)

/-- Modelled from the spec: the size metric as claim C4 words it, where only
non-aborted waiter records are counted regardless of their position in the
queue.  Stated from the claim's words, for comparison with the source's
`size`. -/
def liveRecvCount {α : Type} (ts : List (RecvTask α)) : Nat :=
  (ts.filter fun t => !t.abortedNow).length

/-- Modelled from the spec: live send-waiter count, see `liveRecvCount`. -/
def liveSendCount {α : Type} (ts : List (SendTask α)) : Nat :=
  (ts.filter fun t => !t.abortedNow).length

/-- Modelled from the spec: `len(buffer) + live(send_waiters) −
live(recv_waiters)` with aborted records excluded at any position. -/
def liveSize {α : Type} (s : ChanState α) : Int :=
  (s.buffer.length : Int) + liveSendCount s.sendTasks - liveRecvCount s.recvTasks

/-- The hand-rolled head-pruning loop agrees with `List.dropWhile` on the
abort predicate. -/
theorem pruneRecvHead_eq_dropWhile {α : Type} (ts : List (RecvTask α)) :
    pruneRecvHead ts = ts.dropWhile (fun t => t.abortedNow) := by
  induction ts with
  | nil => rfl
  | cons t rest ih =>
    by_cases h : t.abortedNow <;> simp [pruneRecvHead, List.dropWhile, h, ih]

/-- The hand-rolled head-pruning loop agrees with `List.dropWhile` on the
abort predicate. -/
theorem pruneSendHead_eq_dropWhile {α : Type} (ts : List (SendTask α)) :
    pruneSendHead ts = ts.dropWhile (fun t => t.abortedNow) := by
  induction ts with
  | nil => rfl
  | cons t rest ih =>
    by_cases h : t.abortedNow <;> simp [pruneSendHead, List.dropWhile, h, ih]

end ChannelModel

namespace ChannelModel

/-- Claim C1, code_bug evidence.  On an open `bounded_channel<int, 1>` with
an empty buffer, `send_sched(42, always-false, cb)` should be immediately
satisfiable (the value buffered, `cb` invoked synchronously with true), but
the source's `if constexpr` chain skips the fast path for every bounded
capacity other than 0: no callback fires, a send waiter is registered while
the buffer has free space, and the follow-up `try_recv` then reaches the
`assert(Cap == 0)` / `assert(buffer_.size() >= Cap)` checks with `Cap == 1`,
violating them (`assertOk = false`). -/
theorem sendSched_bounded_skips_fast_path :
    (sendSched (Capacity.bounded 1) 42 (fun _ => false)
      (⟨false, [], [], []⟩ : ChanState Nat)).events = [] ∧
    (sendSched (Capacity.bounded 1) 42 (fun _ => false)
      (⟨false, [], [], []⟩ : ChanState Nat)).state.sendTasks.length = 1 ∧
    (sendSched (Capacity.bounded 1) 42 (fun _ => false)
      (⟨false, [], [], []⟩ : ChanState Nat)).state.buffer = [] ∧
    (tryRecv (Capacity.bounded 1) 1 0
      (sendSched (Capacity.bounded 1) 42 (fun _ => false)
        (⟨false, [], [], []⟩ : ChanState Nat)).state).assertOk = false ∧
    (tryRecv (Capacity.bounded 1) 1 0
      (sendSched (Capacity.bounded 1) 42 (fun _ => false)
        (⟨false, [], [], []⟩ : ChanState Nat)).state).ec = Errc.ok :=
  ⟨rfl, rfl, rfl, rfl, rfl⟩

/-- Claim C2, code_bug evidence.  Capacity-1 channel, full buffer `[5]`,
one live send waiter.  Scenario A: the waiter was registered by
`send_sched` with the default always-false `need_abort`; `try_recv` pops 5
but the drain loop, which never pops nor breaks after executing a live
task, runs the waiter's callback twice, pushes its value twice, and leaves
the buffer at length 2 > Cap = 1 with `assert(buffer_.size() < Cap)`
violated.  Scenario B: the waiter was registered by the blocking `send_`
(whose `need_abort` flips after one execution); the drain then terminates
with the right buffer, but the assert is still violated on the second
iteration. -/
theorem tryRecv_drain_overfills_buffer :
    ((tryRecv (Capacity.bounded 1) 2 0
        (⟨false, [5], [], [⟨fun _ => false, 0, 7⟩]⟩ : ChanState Nat)).ec = Errc.ok ∧
      (tryRecv (Capacity.bounded 1) 2 0
        (⟨false, [5], [], [⟨fun _ => false, 0, 7⟩]⟩ : ChanState Nat)).value = 5 ∧
      (tryRecv (Capacity.bounded 1) 2 0
        (⟨false, [5], [], [⟨fun _ => false, 0, 7⟩]⟩ : ChanState Nat)).assertOk = false ∧
      (tryRecv (Capacity.bounded 1) 2 0
        (⟨false, [5], [], [⟨fun _ => false, 0, 7⟩]⟩ : ChanState Nat)).state.buffer.length = 2 ∧
      (tryRecv (Capacity.bounded 1) 2 0
        (⟨false, [5], [], [⟨fun _ => false, 0, 7⟩]⟩ : ChanState Nat)).events =
        [.sendSettle true, .sendSettle true]) ∧
    ((tryRecv (Capacity.bounded 1) 3 0
        (⟨false, [5], [], [⟨blockingNeedAbort, 0, 7⟩]⟩ : ChanState Nat)).ec = Errc.ok ∧
      (tryRecv (Capacity.bounded 1) 3 0
        (⟨false, [5], [], [⟨blockingNeedAbort, 0, 7⟩]⟩ : ChanState Nat)).assertOk = false ∧
      (tryRecv (Capacity.bounded 1) 3 0
        (⟨false, [5], [], [⟨blockingNeedAbort, 0, 7⟩]⟩ : ChanState Nat)).state.buffer = [7] ∧
      (tryRecv (Capacity.bounded 1) 3 0
        (⟨false, [5], [], [⟨blockingNeedAbort, 0, 7⟩]⟩ : ChanState Nat)).state.sendTasks = []) :=
  ⟨⟨rfl, rfl, rfl, rfl, rfl⟩, ⟨rfl, rfl, rfl, rfl⟩⟩

/-- Claim C3, counterexample.  A channel (both the standalone unbounded one
and a bounded one of capacity 1) holds 42 and is then closed; the claim says
the next `try_recv` drains the buffer and returns ok with 42, but the source
checks `is_closed_` first and returns `closed` while 42 still sits in the
buffer. -/
theorem tryRecv_after_close_returns_closed_despite_buffer :
    ((uTryRecv 0 (uClose (⟨false, [42], []⟩ : UState Nat)).state).ec = Errc.closed ∧
      (uClose (⟨false, [42], []⟩ : UState Nat)).state.buffer = [42]) ∧
    ((tryRecv (Capacity.bounded 1) 0 0
        (close (Capacity.bounded 1) (⟨false, [42], [], []⟩ : ChanState Nat)).state).ec =
        Errc.closed ∧
      (close (Capacity.bounded 1)
        (⟨false, [42], [], []⟩ : ChanState Nat)).state.buffer = [42]) :=
  ⟨⟨rfl, rfl⟩, ⟨rfl, rfl⟩⟩

/-- Claim C3, amended.  After `close()`, further receives (`try_recv` and
`recv`) return `closed` immediately — buffered values are not drained and
stay undelivered, the out-parameter is untouched — and further sends return
`closed`; likewise for the standalone unbounded channel. -/
theorem closed_channel_receives_return_closed {α : Type} [Inhabited α]
    (cap : Capacity) (fuel : Nat) (v out : α) (s : ChanState α) (us : UState α) :
    (tryRecv cap fuel out (close cap s).state).ec = Errc.closed ∧
    (tryRecv cap fuel out (close cap s).state).value = out ∧
    (tryRecv cap fuel out (close cap s).state).state = (close cap s).state ∧
    (recv cap fuel false out (close cap s).state).outcome = .done .closed ∧
    (trySend cap v (close cap s).state).ec = Errc.closed ∧
    (trySend cap v (close cap s).state).state = (close cap s).state ∧
    (uTryRecv out (uClose us).state).ec = Errc.closed ∧
    (uTrySend v (uClose us).state).ec = Errc.closed := by
  cases cap <;>
    simp [close, uClose, tryRecv, recv, trySend, uTryRecv, uTrySend]

/-- Claim C3 amended, witness: a concrete bounded channel holding 3 is
closed; the next `try_recv` reports `closed`. -/
theorem closed_channel_receives_return_closed_witness :
    (tryRecv (Capacity.bounded 1) 0 0
      (close (Capacity.bounded 1) (⟨false, [3], [], []⟩ : ChanState Nat)).state).ec =
      Errc.closed :=
  (closed_channel_receives_return_closed (Capacity.bounded 1) 0 1 0
    (⟨false, [3], [], []⟩ : ChanState Nat) (⟨false, [3], []⟩ : UState Nat)).1

/-- Claim C4, counterexample.  With a live receive waiter in front of an
aborted one, the claim's live-only metric gives −1 but the source's `size`
prunes aborted records only at the head of the queue and still counts the
non-head aborted record: it returns −2. -/
theorem size_counts_non_head_aborted_records :
    (size (Capacity.bounded 0)
      (⟨false, [], [⟨fun _ => false, 0⟩, ⟨fun _ => true, 0⟩], []⟩ : ChanState Nat)).value = -2 ∧
    liveSize
      (⟨false, [], [⟨fun _ => false, 0⟩, ⟨fun _ => true, 0⟩], []⟩ : ChanState Nat) = -1 ∧
    (size (Capacity.bounded 0)
      (⟨false, [], [⟨fun _ => false, 0⟩, ⟨fun _ => true, 0⟩], []⟩ : ChanState Nat)).value ≠
      liveSize
        (⟨false, [], [⟨fun _ => false, 0⟩, ⟨fun _ => true, 0⟩], []⟩ : ChanState Nat) := by
  refine ⟨rfl, rfl, ?_⟩
  decide

/-- Claim C4, amended.  The size metric returns `len(buffer) +
len(send_waiters) − len(recv_waiters)` where each waiter queue is first
pruned of aborted records at its head only (the send queue only for bounded
capacities): aborted records behind the first live record are still
counted.  The buffer is untouched and the pruned queues are stored back. -/
theorem size_eq_head_pruned_counts {α : Type} (cap : Capacity) (s : ChanState α) :
    (size cap s).value =
      (s.buffer.length : Int) +
        (match cap with
          | .bounded _ => s.sendTasks.dropWhile (fun t : SendTask α => t.abortedNow)
          | .unbounded => s.sendTasks).length -
        (s.recvTasks.dropWhile (fun t => t.abortedNow)).length ∧
    (size cap s).state.recvTasks = s.recvTasks.dropWhile (fun t => t.abortedNow) ∧
    (size cap s).state.buffer = s.buffer ∧
    (uSize (⟨s.isClosed, s.buffer, s.recvTasks⟩ : UState α)).value =
      (s.buffer.length : Int) -
        (s.recvTasks.dropWhile (fun t => t.abortedNow)).length := by
  cases cap <;>
    simp [size, uSize, pruneRecvHead_eq_dropWhile, pruneSendHead_eq_dropWhile]

/-- Claim C4 amended, witness: a concrete bounded channel with one buffered
value and empty queues. -/
theorem size_eq_head_pruned_counts_witness :
    (size (Capacity.bounded 2) (⟨false, [1], [], []⟩ : ChanState Nat)).value =
      (((⟨false, [1], [], []⟩ : ChanState Nat).buffer.length : Int) +
        (match Capacity.bounded 2 with
          | .bounded _ =>
            (⟨false, [1], [], []⟩ : ChanState Nat).sendTasks.dropWhile
              (fun t : SendTask Nat => t.abortedNow)
          | .unbounded => (⟨false, [1], [], []⟩ : ChanState Nat).sendTasks).length -
        ((⟨false, [1], [], []⟩ : ChanState Nat).recvTasks.dropWhile
          (fun t => t.abortedNow)).length) :=
  (size_eq_head_pruned_counts (Capacity.bounded 2)
    (⟨false, [1], [], []⟩ : ChanState Nat)).1

/-- Once the greedy fold's accumulator is settled, the remaining ops are
skipped: the fold is constant. -/
theorem greedyFold_settled {σ : Type} (ops : List (Op σ)) (w : σ) :
    List.foldl (fun (acc : Bool × σ) op => if acc.1 then acc else op.tryExecute acc.2)
      (true, w) ops = (true, w) := by
  induction ops with
  | nil => rfl
  | cons o rest ih => simpa using ih

/-- Claim C5.  The greedy pass of `select` attempts the ops strictly in the
order provided; as soon as one op's `try_execute` settles, `select` returns
with only the prefix up to and including that op attempted: the ops after
it are never consulted (the result does not depend on `post`), the fallback
does not run, and nothing is scheduled (no waiter is registered on any
channel). -/
theorem select_commits_first_ready_op {σ : Type} (pre post : List (Op σ))
    (t : Op σ) (fb : Option (σ → σ)) (w : σ)
    (hpre : (greedyPass pre w).1 = false)
    (ht : (t.tryExecute (greedyPass pre w).2).1 = true) :
    select (pre ++ t :: post) fb w =
      .greedy (t.tryExecute (greedyPass pre w).2).2 := by
  have hpair : t.tryExecute (greedyPass pre w).2 =
      (true, (t.tryExecute (greedyPass pre w).2).2) := by
    rw [← ht]
  have hfold : greedyPass (pre ++ t :: post) w =
      (true, (t.tryExecute (greedyPass pre w).2).2) := by
    unfold greedyPass
    rw [List.foldl_append]
    show List.foldl _ ((fun (acc : Bool × σ) op =>
      if acc.1 then acc else op.tryExecute acc.2) (greedyPass pre w) t) post = _
    rw [show (fun (acc : Bool × σ) op =>
        if acc.1 then acc else op.tryExecute acc.2) (greedyPass pre w) t =
        t.tryExecute (greedyPass pre w).2 by simp [hpre]]
    rw [hpair, greedyFold_settled]
    rfl
  simp [select, hfold]

/-- Claim C5, witness: with one not-ready op ahead of a ready one, `select`
commits the ready op's greedy result, whatever comes after it. -/
theorem select_commits_first_ready_op_witness :
    (greedyPass [⟨fun w => (false, w + 1), fun w => w + 100⟩] 3).1 = false ∧
    (((⟨fun w => (true, w * 2), fun w => w + 1000⟩ : Op Nat)).tryExecute
      (greedyPass [⟨fun w => (false, w + 1), fun w => w + 100⟩] 3).2).1 = true ∧
    select ([⟨fun w => (false, w + 1), fun w => w + 100⟩] ++
        (⟨fun w => (true, w * 2), fun w => w + 1000⟩ : Op Nat) ::
          [⟨fun _ => (true, 0), fun _ => 0⟩])
      (some fun _ => 77) 3 = .greedy 8 :=
  ⟨rfl, rfl,
    select_commits_first_ready_op
      [⟨fun w => (false, w + 1), fun w => w + 100⟩]
      [⟨fun _ => (true, 0), fun _ => 0⟩]
      ⟨fun w => (true, w * 2), fun w => w + 1000⟩
      (some fun _ => 77) 3 rfl rfl⟩

/-- Claim C6.  For the unbounded channel — the standalone
`unbounded_channel` and the `bounded_channel` template instantiated at
`unbounded_capacity` alike — `try_send` returns `ok` whenever the channel
is not closed (it never returns `exhausted` while open) and `closed` once
the channel has been closed. -/
theorem unbounded_trySend_never_exhausted {α : Type} (v : α)
    (s : UState α) (sb : ChanState α) :
    (uTrySend v s).ec = (if s.isClosed then Errc.closed else Errc.ok) ∧
    (trySend Capacity.unbounded v sb).ec =
      (if sb.isClosed then Errc.closed else Errc.ok) := by
  constructor
  · cases h : s.isClosed <;> simp [uTrySend, h]
  · cases h : sb.isClosed <;> simp [trySend, h]

/-- Claim C6, witness: an open and a closed unbounded channel. -/
theorem unbounded_trySend_never_exhausted_witness :
    (uTrySend 5 (⟨false, [], []⟩ : UState Nat)).ec =
      (if (⟨false, [], []⟩ : UState Nat).isClosed then Errc.closed else Errc.ok) :=
  (unbounded_trySend_never_exhausted 5 (⟨false, [], []⟩ : UState Nat)
    (⟨false, [], [], []⟩ : ChanState Nat)).1

/-- Claim C7.  When the stop token is already stop-requested as a blocking
`recv` or `send` starts, the operation returns `canceled` with no transfer:
the out-parameter keeps its value, no callback fires, the value is not
consumed, and the channel state — buffer and both waiter queues — is
returned unchanged (template and standalone unbounded variants alike). -/
theorem blocking_ops_canceled_before_start_no_transfer {α : Type}
    (cap : Capacity) (fuel : Nat) (v out : α) (s : ChanState α) (us : UState α) :
    recv cap fuel true out s =
      { outcome := .done .canceled, value := out, state := s
        events := [], assertOk := true } ∧
    send cap true v s =
      { outcome := .done .canceled, state := s, events := []
        consumed := false, assertOk := true } ∧
    uRecv true out us = { outcome := .done .canceled, value := out, state := us } ∧
    uSend true v us = { ec := .canceled, state := us, events := [], assertOk := true } :=
  ⟨rfl, rfl, rfl, rfl⟩

/-- Claim C7, witness: a rendezvous channel, token already requested. -/
theorem blocking_ops_canceled_before_start_no_transfer_witness :
    recv (Capacity.bounded 0) 0 true 0 (⟨false, [], [], []⟩ : ChanState Nat) =
      { outcome := .done .canceled, value := 0, state := ⟨false, [], [], []⟩
        events := [], assertOk := true } :=
  (blocking_ops_canceled_before_start_no_transfer (Capacity.bounded 0) 0 1 0
    (⟨false, [], [], []⟩ : ChanState Nat) (⟨false, [], []⟩ : UState Nat)).1

/-- Claim C8.  The first `close` leaves the channel closed with both waiter
queues drained (the send queue only exists to drain for bounded capacities;
the unbounded instantiation never populates it and `close` skips it); a
second `close` with no intervening operation changes no state and invokes
no callback. -/
theorem close_idempotent {α : Type} [Inhabited α] (cap : Capacity)
    (s : ChanState α) :
    ((close cap s).state).isClosed = true ∧
    ((close cap s).state).recvTasks = [] ∧
    ((close cap s).state).sendTasks =
      (match cap with
        | .bounded _ => ([] : List (SendTask α))
        | .unbounded => s.sendTasks) ∧
    (close cap (close cap s).state).state = (close cap s).state ∧
    (close cap (close cap s).state).events = [] := by
  cases cap <;> simp [close, closeDrainRecv, closeDrainSend]

/-- Claim C8, witness: closing a concrete channel with one buffered value
leaves it closed. -/
theorem close_idempotent_witness :
    ((close (Capacity.bounded 1) (⟨false, [9], [], []⟩ : ChanState Nat)).state).isClosed =
      true :=
  (close_idempotent (Capacity.bounded 1) (⟨false, [9], [], []⟩ : ChanState Nat)).1

/-- Claim C9.  On a channel that is already closed, a blocking `recv` or
`send` whose token is already stop-requested returns `canceled`, not
`closed`: both operations consult the token before the closed flag. -/
theorem canceled_checked_before_closed {α : Type} (cap : Capacity)
    (fuel : Nat) (v out : α) (s : ChanState α) (_h : s.isClosed = true) :
    (recv cap fuel true out s).outcome = .done .canceled ∧
    (send cap true v s).outcome = .done .canceled :=
  ⟨rfl, rfl⟩

/-- Claim C9, witness: a concrete closed channel, canceled token. -/
theorem canceled_checked_before_closed_witness :
    (⟨true, [], [], []⟩ : ChanState Nat).isClosed = true ∧
    ((recv (Capacity.bounded 0) 0 true 0
        (⟨true, [], [], []⟩ : ChanState Nat)).outcome = .done .canceled ∧
      (send (Capacity.bounded 0) true 1
        (⟨true, [], [], []⟩ : ChanState Nat)).outcome = .done .canceled) :=
  ⟨rfl, canceled_checked_before_closed (Capacity.bounded 0) 0 1 0
    (⟨true, [], [], []⟩ : ChanState Nat) rfl⟩

/-- When the boolean `try_send_` helper fails, it has neither touched the
buffer nor moved from its argument (it may only have popped aborted
receive waiters). -/
theorem trySendB_not_ok {α : Type} (cap : Capacity) (v : α) (s : ChanState α)
    (h : (trySendB cap v s).ok = false) :
    (trySendB cap v s).state.buffer = s.buffer ∧
    (trySendB cap v s).consumed = false := by
  unfold trySendB at h ⊢
  cases hd : (sendHandoffLoop v s.buffer.isEmpty s.recvTasks).delivered
  · cases cap with
    | bounded n =>
      cases n with
      | zero => simp [hd]
      | succ m =>
        by_cases hb : s.buffer.length ≥ m + 1
        · simp [hd, hb]
        · simp [hd, hb] at h
    | unbounded => simp [hd] at h
  · simp [hd] at h

/-- Claim C10.  Whenever `try_send` returns a code other than `ok`
(`closed` or `exhausted`), the buffer is unchanged and the argument value
has not been consumed (not moved from), so the caller may retry with the
same value. -/
theorem trySend_failure_preserves_value_and_buffer {α : Type} (cap : Capacity)
    (v : α) (s : ChanState α) (h : (trySend cap v s).ec ≠ Errc.ok) :
    (trySend cap v s).state.buffer = s.buffer ∧
    (trySend cap v s).consumed = false := by
  unfold trySend at h ⊢
  by_cases hc : s.isClosed
  · simp [hc]
  · cases cap with
    | unbounded => simp [hc] at h
    | bounded n =>
      simp only [hc, Bool.false_eq_true, if_false] at h ⊢
      by_cases hok : (trySendB (.bounded n) v s).ok
      · simp [hok] at h
      · exact trySendB_not_ok (.bounded n) v s (by simpa using hok)

/-- Claim C10, witness: `try_send` on an empty open rendezvous channel
returns `exhausted`, leaving the buffer empty and the value unconsumed. -/
theorem trySend_failure_preserves_value_and_buffer_witness :
    (trySend (Capacity.bounded 0) 42 (⟨false, [], [], []⟩ : ChanState Nat)).ec ≠ Errc.ok ∧
    ((trySend (Capacity.bounded 0) 42
        (⟨false, [], [], []⟩ : ChanState Nat)).state.buffer =
      (⟨false, [], [], []⟩ : ChanState Nat).buffer ∧
      (trySend (Capacity.bounded 0) 42
        (⟨false, [], [], []⟩ : ChanState Nat)).consumed = false) :=
  ⟨by decide,
    trySend_failure_preserves_value_and_buffer (Capacity.bounded 0) 42
      (⟨false, [], [], []⟩ : ChanState Nat) (by decide)⟩

end ChannelModel
